import Mathlib

/-!
Shallow embedding of the nodewhatsapp session lifecycle manager.

Sources embedded here:
- `src/unnamed/part_000` (the `WhatsAppService` class): per-tenant connection
  state machine, reconnection controller, pairing-code (QR) issuance,
  send paths and the appointment template engine;
- `src/services/whatsappManager.js` (the `WhatsAppManager` class): the
  tenant-to-Session registry and the credential-store operations.

External collaborators (Baileys transport, the `qrcode` renderer, the file
system holding credential directories, wall-clock time) are modelled as
parameters or as events carrying their outcomes.  Machine concerns absent
from the JS semantics (all numbers here are small naturals) are modelled
with `Nat`.
-/

/- ### Generic string helpers (substring containment, used by the template
theorems).  `startsWithL pat l` holds when `pat` is a prefix of `l`;
`subL pat l` when `pat` occurs contiguously inside `l`. -/

def startsWithL : List Char → List Char → Bool
  | [], _ => true
  | _ :: _, [] => false
  | a :: as, b :: bs => a == b && startsWithL as bs

def subL (pat : List Char) : List Char → Bool
  | [] => startsWithL pat []
  | b :: bs => startsWithL pat (b :: bs) || subL pat bs

/-- Substring containment on `String`, via the underlying character lists. -/
def containsSub (pat s : String) : Bool :=
  subL pat.data s.data

/- ### Association-list model of a JS `Map` with `String` keys.  Keys are
unique in every state the registry produces; `mapErase` removes every
binding of the key, matching `Map.delete` on that abstraction. -/

def mapLookup {α : Type} (k : String) : List (String × α) → Option α
  | [] => none
  | (k', v) :: rest => if k' = k then some v else mapLookup k rest

def mapSet {α : Type} (k : String) (v : α) : List (String × α) → List (String × α)
  | [] => [(k, v)]
  | (k', v') :: rest => if k' = k then (k, v) :: rest else (k', v') :: mapSet k v rest

def mapErase {α : Type} (k : String) (m : List (String × α)) : List (String × α) :=
  m.filter (fun kv => kv.1 != k)

/-- `phoneNumber.replace(/[^0-9]/g, '')`: keep only ASCII digits. -/
def cleanPhone (s : String) : String :=
  ⟨s.data.filter Char.isDigit⟩

/- ### Session data model (`WhatsAppService`, src/unnamed/part_000). -/

/-- The values `this.connectionState` ranges over.  The string `'error'` is
compared against in `waitForConnection` but never assigned by the service;
it is included so the comparison can be embedded faithfully. -/
inductive ConnState where
  | disconnected
  | connecting
  | qr_ready
  | connected
  | reconnecting
  | logged_out
  | failed
  | error
  deriving DecidableEq, Repr

/-- The string the state serialises to (used in snapshots and messages). -/
def connStateStr : ConnState → String
  | .disconnected => "disconnected"
  | .connecting => "connecting"
  | .qr_ready => "qr_ready"
  | .connected => "connected"
  | .reconnecting => "reconnecting"
  | .logged_out => "logged_out"
  | .failed => "failed"
  | .error => "error"

/-- Mutable fields of a `WhatsAppService` instance (constructor,
src/unnamed/part_000 lines 69-93).  `client` is modelled by the flag
`clientActive` (whether a transport socket object is live);
`reconnectTimeout` holds `some delay` while a reconnection timer is
pending, `none` otherwise. -/
structure SessionState where
  clientActive : Bool
  isConnected : Bool
  connectionState : ConnState
  qrCode : Option String
  phoneNumber : String
  authDir : String
  reconnectAttempts : Nat
  maxReconnectAttempts : Nat
  isBusinessAccount : Bool
  reconnectTimeout : Option Nat
  isReconnecting : Bool
  lastReconnectTime : Nat
  minReconnectDelay : Nat
  maxReconnectDelay : Nat
  shouldGenerateQR : Bool
  latestQR : Option String
  deriving DecidableEq, Repr

/-- The constructor's initial field values. -/
def initSession (phoneNumber authDir : String) : SessionState :=
  { clientActive := false
    isConnected := false
    connectionState := .disconnected
    qrCode := none
    phoneNumber := phoneNumber
    authDir := authDir
    reconnectAttempts := 0
    maxReconnectAttempts := 2
    isBusinessAccount := false
    reconnectTimeout := none
    isReconnecting := false
    lastReconnectTime := 0
    minReconnectDelay := 2000
    maxReconnectDelay := 10000
    shouldGenerateQR := false
    latestQR := none }

/- ### Disconnect reason codes (Baileys `DisconnectReason`). -/

namespace DisconnectReason

def loggedOut : Nat := 401
def connectionClosed : Nat := 428
def connectionLost : Nat := 408
def restartRequired : Nat := 515
def timedOut : Nat := 408

end DisconnectReason

/-- `shouldAttemptReconnect(disconnectReason)` (src/unnamed/part_000
lines 242-255); `Array.includes(undefined)` is `false`, hence the `none`
case. -/
def shouldAttemptReconnect (disconnectReason : Option Nat) : Bool :=
  let recoverableReasons : List Nat :=
    [DisconnectReason.connectionClosed,
     DisconnectReason.connectionLost,
     DisconnectReason.restartRequired,
     DisconnectReason.timedOut,
     408, 500, 502, 503]
  match disconnectReason with
  | some r => recoverableReasons.contains r
  | none => false

/-- `scheduleReconnect()` (src/unnamed/part_000 lines 258-304):
the synchronous part of one controller invocation.  The scheduled
`setTimeout` body is modelled separately by `reconnectTimerFires`. -/
def scheduleReconnect (s : SessionState) : SessionState :=
  if s.isReconnecting then s
  else if s.maxReconnectAttempts ≤ s.reconnectAttempts then
    { s with connectionState := .failed, isReconnecting := false }
  else
    let attempts := s.reconnectAttempts + 1
    let delay := if attempts = 1 then 2000 else 5000
    { s with isReconnecting := true
             reconnectAttempts := attempts
             reconnectTimeout := some delay }

/-- The body of the timer scheduled by `scheduleReconnect` (the
`setTimeout` callback, lines 281-303, together with `attemptReconnect`,
lines 307-339).  `ok` is whether `attemptReconnect` (tear down the old
socket, re-run `initialize`) succeeded; `now` is `Date.now()` at success.
A fresh controller re-entry after a failed attempt with attempts left is
the 1-second `setTimeout(() => this.scheduleReconnect(), 1000)`: it is a
separate later invocation, represented by a subsequent `sched` event.
When no timer is pending the callback cannot run, so the state is kept. -/
def reconnectTimerFires (s : SessionState) (ok : Bool) (now : Nat) : SessionState :=
  match s.reconnectTimeout with
  | none => s
  | some _ =>
    if ok then
      { s with reconnectTimeout := none
               clientActive := true
               lastReconnectTime := now
               isReconnecting := false }
    else
      let s := { s with reconnectTimeout := none
                        clientActive := false
                        isReconnecting := false }
      if s.reconnectAttempts < s.maxReconnectAttempts then s
      else { s with connectionState := .failed }

/-- One reconnection-controller event: an invocation of
`scheduleReconnect`, or a pending timer firing with outcome `ok`. -/
inductive RcEvent where
  | sched
  | fire (ok : Bool) (now : Nat)
  deriving DecidableEq, Repr

def rcStep (s : SessionState) : RcEvent → SessionState
  | .sched => scheduleReconnect s
  | .fire ok now => reconnectTimerFires s ok now

/-- A sequence of reconnection-controller events applied in order. -/
def runRc (s : SessionState) (es : List RcEvent) : SessionState :=
  es.foldl rcStep s

/- ### Pairing-code (QR) issuance. -/

/-- `generateQRCode(qr)` (lines 357-366).  `render` models
`QRCode.toDataURL`: `some dataUrl` on success, `none` when rendering
throws, in which case the raw code is stored untouched.  Every call of
this function is one render call. -/
def generateQRCode (render : String → Option String) (s : SessionState) (qr : String) :
    SessionState :=
  { s with connectionState := .qr_ready
           qrCode := some ((render qr).getD qr) }

/-- `requestQRCode()` (lines 369-376).  Returns the new state and the
number of render calls performed (0 or 1). -/
def requestQRCode (render : String → Option String) (s : SessionState) :
    SessionState × Nat :=
  let s := { s with shouldGenerateQR := true }
  match s.latestQR with
  | some qr => ({ generateQRCode render s qr with shouldGenerateQR := false }, 1)
  | none => (s, 0)

/-- `getQRCode()` (lines 379-381): reads the rendered cache, renders
nothing. -/
def getQRCode (s : SessionState) : Option String :=
  s.qrCode

/- ### The `connection.update` handler (lines 129-224). -/

inductive ConnSignal where
  | close
  | openS
  | connectingS
  deriving DecidableEq, Repr

/-- One `connection.update` payload.  `disconnectReason` is
`lastDisconnect?.error?.output?.statusCode`; `disconnectErrorCode` is
`lastDisconnect?.error?.output?.payload?.error`; `accountIsBusiness` is
the outcome of `detectBusinessAccount()` on the transport metadata
(`false` both when the account is not business and when detection
fails). -/
structure ConnUpdateMsg where
  connection : Option ConnSignal
  disconnectReason : Option Nat
  disconnectErrorCode : Option String
  qr : Option String
  accountIsBusiness : Bool
  deriving DecidableEq, Repr

/-- The `connection === 'close'` branch (lines 142-200).  Returns the new
session state and whether `manager.removeInstanceCompletely` was
invoked. -/
def onCloseUpdate (s : SessionState) (reason : Option Nat) (errorCode : Option String) :
    SessionState × Bool :=
  if reason = some DisconnectReason.loggedOut then
    ({ s with connectionState := .logged_out
              isConnected := false
              reconnectAttempts := 0
              qrCode := none
              latestQR := none
              isBusinessAccount := false
              isReconnecting := false
              reconnectTimeout := none }, true)
  else if reason = some 515 ∨ errorCode = some "515" then
    (scheduleReconnect { s with connectionState := .reconnecting
                                isConnected := false
                                qrCode := none
                                latestQR := none }, false)
  else if shouldAttemptReconnect reason then
    (scheduleReconnect { s with connectionState := .reconnecting
                                isConnected := false
                                qrCode := none
                                latestQR := none }, false)
  else
    ({ s with connectionState := .disconnected
              isConnected := false
              qrCode := none
              latestQR := none
              isBusinessAccount := false
              isReconnecting := false
              reconnectTimeout := none }, false)

/-- The `connection === 'open'` branch (lines 201-218). -/
def onOpenUpdate (s : SessionState) (isBusiness : Bool) : SessionState :=
  { s with isConnected := true
           connectionState := .connected
           qrCode := none
           latestQR := none
           reconnectAttempts := 0
           isReconnecting := false
           lastReconnectTime := 0
           reconnectTimeout := none
           isBusinessAccount := isBusiness }

/-- The `if (qr)` prologue of the handler (lines 133-140): cache the raw
code; render it only when explicitly requested.  Returns the new state
and the number of render calls (0 or 1). -/
def qrPhase (render : String → Option String) (s : SessionState) :
    Option String → SessionState × Nat
  | some qr =>
    let s := { s with latestQR := some qr }
    if s.shouldGenerateQR then
      ({ generateQRCode render s qr with shouldGenerateQR := false }, 1)
    else (s, 0)
  | none => (s, 0)

/-- The whole `connection.update` handler: the `qr` field is processed
first (lines 133-140), then the `connection` field.  Returns the new
state, whether `removeInstanceCompletely` was requested, and how many
render calls happened. -/
def handleConnectionUpdate (render : String → Option String) (s : SessionState)
    (u : ConnUpdateMsg) : SessionState × Bool × Nat :=
  let qrOut : SessionState × Nat := qrPhase render s u.qr
  let s := qrOut.1
  match u.connection with
  | some .close =>
    let out := onCloseUpdate s u.disconnectReason u.disconnectErrorCode
    (out.1, out.2, qrOut.2)
  | some .openS => (onOpenUpdate s u.accountIsBusiness, false, qrOut.2)
  | some .connectingS =>
    ({ s with connectionState := .connecting, isConnected := false }, false, qrOut.2)
  | none => (s, false, qrOut.2)

/-- `gracefulShutdown()` (lines 866-893): cancel the reconnection timer,
clear the reconnecting flag, end the transport socket, mark
disconnected.  Credential files are not touched. -/
def gracefulShutdown (s : SessionState) : SessionState :=
  { s with reconnectTimeout := none
           isReconnecting := false
           clientActive := false
           isConnected := false
           connectionState := .disconnected }

/- ### `waitForConnection` and the send path (lines 399-483). -/

/-- `waitForConnection(timeout)` (lines 399-432): the session state is
re-observed every 500 ms until `isConnected`, a terminal state, or the
timeout.  The finite list is the sequence of observations the poll makes
(its length bounds the 30-second budget); the empty list is the timeout.
On success it returns the observed state at resolution time. -/
def waitForConnection : List SessionState → Except String SessionState
  | [] => Except.error "Timeout esperando conexión"
  | s :: rest =>
    if s.isConnected then Except.ok s
    else if s.connectionState = ConnState.error ∨ s.connectionState = ConnState.logged_out then
      Except.error ("No se puede conectar: " ++ connStateStr s.connectionState)
    else waitForConnection rest

/-- Observable outcome of one `sendMessage` call. -/
structure SendOutcome where
  threw : Option String
  handedToTransport : Bool
  telemetryCount : Nat
  deriving DecidableEq, Repr

/-- `sendMessage(to, message)` (lines 434-483).  `trace` is the sequence
of session states `waitForConnection` observes; `transportOk` is whether
`client.sendMessage` succeeds.  A rejection from `waitForConnection` (or
the follow-up `isConnected` recheck) propagates before the `try` block,
so it emits no `notifyError` telemetry; only a transport send failure
does. -/
def sendMessageModel (trace : List SessionState) (transportOk : Bool) : SendOutcome :=
  match waitForConnection trace with
  | Except.error e => { threw := some e, handedToTransport := false, telemetryCount := 0 }
  | Except.ok s =>
    if !s.isConnected then
      { threw := some "WhatsApp no está conectado", handedToTransport := false
        telemetryCount := 0 }
    else if transportOk then
      { threw := none, handedToTransport := true, telemetryCount := 0 }
    else
      { threw := some "Error enviando mensaje", handedToTransport := true
        telemetryCount := 1 }

/-- `getConnectionState()` (lines 383-397).  The `lastUpdate` wall-clock
field is omitted (external clock, unused by any claim). -/
structure ConnectionSnapshot where
  isConnected : Bool
  state : String
  qrCode : Option String
  phoneNumber : String
  reconnectAttempts : Nat
  maxReconnectAttempts : Nat
  isReconnecting : Bool
  isBusinessAccount : Bool
  needsQR : Bool
  canConnect : Bool
  deriving DecidableEq, Repr

def getConnectionState (s : SessionState) : ConnectionSnapshot :=
  { isConnected := s.isConnected
    state := connStateStr s.connectionState
    qrCode := s.qrCode
    phoneNumber := s.phoneNumber
    reconnectAttempts := s.reconnectAttempts
    maxReconnectAttempts := s.maxReconnectAttempts
    isReconnecting := s.isReconnecting
    isBusinessAccount := s.isBusinessAccount
    needsQR := decide (s.connectionState = .qr_ready) && s.qrCode.isSome
    canConnect := !s.isConnected && decide (s.connectionState ≠ .connecting) }

/- ### Template engine (src/unnamed/part_000 lines 599-864). -/

/-- A local calendar date: the (year, month, day) components of a JS
`Date` constructed as `new Date(year, month - 1, day)` (month here is
1-based).  Appointment date strings `"YYYY-MM-DD"` are parsed into these
components by `formatAppointmentDate` (lines 654-661). -/
structure CalDate where
  year : Nat
  month : Nat
  day : Nat
  deriving DecidableEq, Repr

/-- A JS `Date` value as observed through its local calendar and time
component getters (`new Date()` in `formatAppointmentDate`). -/
structure JsDateTime where
  year : Nat
  month : Nat
  day : Nat
  hour : Nat
  minute : Nat
  second : Nat
  deriving DecidableEq, Repr

/-- `new Date(today.getFullYear(), today.getMonth(), today.getDate())`
(line 665): project the clock onto its calendar components. -/
def todayOf (now : JsDateTime) : CalDate :=
  ⟨now.year, now.month, now.day⟩

def isLeap (y : Nat) : Bool :=
  (y % 4 == 0 && y % 100 != 0) || y % 400 == 0

def daysInMonth (y m : Nat) : Nat :=
  if m = 2 then (if isLeap y then 29 else 28)
  else if m = 4 ∨ m = 6 ∨ m = 9 ∨ m = 11 then 30
  else 31

/-- A structurally valid calendar date. -/
def validDate (d : CalDate) : Prop :=
  1 ≤ d.month ∧ d.month ≤ 12 ∧ 1 ≤ d.day ∧ d.day ≤ daysInMonth d.year d.month

instance (d : CalDate) : Decidable (validDate d) := by
  unfold validDate; infer_instance

/-- `tomorrow.setDate(tomorrow.getDate() + 1)` (lines 667-668): the JS
`Date` normalisation of day + 1 on a valid date. -/
def nextDay (d : CalDate) : CalDate :=
  if d.day + 1 ≤ daysInMonth d.year d.month then ⟨d.year, d.month, d.day + 1⟩
  else if d.month + 1 ≤ 12 then ⟨d.year, d.month + 1, 1⟩
  else ⟨d.year + 1, 1, 1⟩

/-- `date.getDay()` for a `Date` built from local components: weekday with
0 = Sunday, via Zeller's congruence. -/
def jsGetDay (d : CalDate) : Nat :=
  let y := if d.month < 3 then d.year - 1 else d.year
  let m := if d.month < 3 then d.month + 12 else d.month
  let K := y % 100
  let J := y / 100
  (d.day + (13 * (m + 1)) / 5 + K + K / 4 + J / 4 + 5 * J + 6) % 7

def dayNames : List String :=
  ["Domingo", "Lunes", "Martes", "Miércoles", "Jueves", "Viernes", "Sábado"]

def monthNames : List String :=
  ["Enero", "Febrero", "Marzo", "Abril", "Mayo", "Junio",
   "Julio", "Agosto", "Septiembre", "Octubre", "Noviembre", "Diciembre"]

/-- The `getTime()` comparison of two date-only `Date`s built from local
calendar components (lines 679-683): equal exactly when the components
are equal. -/
def jsDateEq (a b : CalDate) : Bool :=
  a.year == b.year && a.month == b.month && a.day == b.day

/-- The `` `${dayName} ${day} de ${month}` `` portion shared by all three
branches of `formatAppointmentDate` (lines 682-686).  Both array
subscripts are in range on every input the source can produce
(`getDay() < 7`, valid months); `getD` with default `""` embeds the
subscript. -/
def plainDateStr (date : CalDate) : String :=
  dayNames.getD (jsGetDay date) "" ++ " " ++ toString date.day ++ " de " ++
    monthNames.getD (date.month - 1) ""

/-- `formatAppointmentDate(dateStr)` (lines 649-688) on the parsed
calendar components of the appointment date and the current clock. -/
def formatAppointmentDate (now : JsDateTime) (date : CalDate) : String :=
  let todayLocal := todayOf now
  let tomorrow := nextDay todayLocal
  if jsDateEq date todayLocal then
    "HOY - " ++ plainDateStr date
  else if jsDateEq date tomorrow then
    "MAÑANA - " ++ plainDateStr date
  else
    plainDateStr date

/-- The appointment fields the generators read. -/
structure AppointmentData where
  patientName : String
  serviceName : String
  professionalName : String
  date : CalDate
  time : String
  duration : String
  locationName : String
  locationAddress : String
  deriving DecidableEq, Repr

/-- A `sendTemplate` request body (`templateData`). -/
structure TemplateData where
  messageType : String
  appointmentData : AppointmentData
  confirmUrl : Option String
  cancelUrl : Option String
  deriving DecidableEq, Repr

/-- JS truthiness of an optional URL string: absent and `''` are falsy. -/
def truthy : Option String → Bool
  | none => false
  | some s => s ≠ ""

structure TemplateButton where
  index : Nat
  displayText : String
  url : String
  deriving DecidableEq, Repr

/-- The message value a generator returns: a plain string, or an object
`{ text, templateButtons }`. -/
inductive MessagePayload where
  | plain (text : String)
  | buttoned (text : String) (templateButtons : List TemplateButton)
  deriving DecidableEq, Repr

/-- The `templateButtons` array each generator builds (identical blocks at
lines 707-727, 768-788, 827-847): push confirm with index 1 when present,
then cancel with index `templateButtons.length + 1` when present. -/
def mkTemplateButtons (confirmUrl cancelUrl : Option String) : List TemplateButton :=
  let b : List TemplateButton := []
  let b := if truthy confirmUrl then
      b ++ [⟨1, "✅ Confirmar Turno", confirmUrl.getD ""⟩] else b
  let b := if truthy cancelUrl then
      b ++ [⟨b.length + 1, "❌ Cancelar Turno", cancelUrl.getD ""⟩] else b
  b

/-- The inline-link suffix of the non-business text path (lines 736-741,
797-802, 856-861); `header` is `"\n\n📱 *Opciones:*"` for confirmation and
reminder, `"\n\n📱 *RESPONDA INMEDIATAMENTE:*"` for urgent. -/
def appendInlineOptions (header base : String) (confirmUrl cancelUrl : Option String) :
    String :=
  if truthy confirmUrl || truthy cancelUrl then
    let t := base ++ header
    let t := if truthy confirmUrl then
        t ++ ("\n✅ Confirmar Turno: " ++ confirmUrl.getD "") else t
    let t := if truthy cancelUrl then
        t ++ ("\n❌ Cancelar Turno: " ++ cancelUrl.getD "") else t
    t
  else base

/-- Shared business/plain dispatch at the tail of each generator:
buttons when the account is business-capable and a URL is truthy,
otherwise plain text with inline links. -/
def finishTemplate (isBusinessAccount : Bool) (header baseMessage : String)
    (confirmUrl cancelUrl : Option String) : MessagePayload :=
  if isBusinessAccount && (truthy confirmUrl || truthy cancelUrl) then
    .buttoned baseMessage (mkTemplateButtons confirmUrl cancelUrl)
  else
    .plain (appendInlineOptions header baseMessage confirmUrl cancelUrl)

/-- `generateConfirmationMessage` (lines 690-744).  `isBusinessAccount`
is the `this.isBusinessAccount` field of the session the method runs
on. -/
def generateConfirmationMessage (isBusinessAccount : Bool) (data : AppointmentData)
    (formattedDate : String) (confirmUrl cancelUrl : Option String) : MessagePayload :=
  let baseMessage :=
    "📅 *TURNO ASIGNADO*\n\n    👤 *Paciente:* " ++ data.patientName ++
    "\n    ✨ *Servicio:* " ++ data.serviceName ++
    "\n    👨‍⚕️ *Profesional:* " ++ data.professionalName ++
    "\n    📅 *Fecha:* " ++ formattedDate ++
    "\n    🕐 *Hora:* " ++ data.time ++ " hs" ++
    "\n    📍 *Lugar:* " ++ data.locationName ++
    "\n    🗺️ *Dirección:* " ++ data.locationAddress ++
    "\n\n    Por favor, confirme su asistencia al turno."
  finishTemplate isBusinessAccount "\n\n📱 *Opciones:*" baseMessage confirmUrl cancelUrl

/-- `generateReminderMessage` (lines 746-805). -/
def generateReminderMessage (isBusinessAccount : Bool) (data : AppointmentData)
    (formattedDate : String) (confirmUrl cancelUrl : Option String) : MessagePayload :=
  let baseMessage :=
    "⏰ *RECORDATORIO DE TURNO*\n    ━━━━━━━━━━━━━━━━━━━━━\n\n    ¡Hola " ++
    data.patientName ++ "! 👋\n    Te recordamos tu próximo turno:\n\n    🏥 *Servicio:* " ++
    data.serviceName ++
    "\n    👨‍⚕️ *Profesional:* " ++ data.professionalName ++
    "\n    📅 *Fecha:* " ++ formattedDate ++
    "\n    🕐 *Hora:* " ++ data.time ++ " hs" ++
    "\n    📍 *Lugar:* " ++ data.locationName ++
    "\n    🗺️ *Dirección:* " ++ data.locationAddress ++
    "\n\n    ━━━━━━━━━━━━━━━━━━━━━\n\n    📞 _Si tienes dudas, contactanos_"
  finishTemplate isBusinessAccount "\n\n📱 *Opciones:*" baseMessage confirmUrl cancelUrl

/-- `generateUrgentMessage` (lines 807-864); omits the address line. -/
def generateUrgentMessage (isBusinessAccount : Bool) (data : AppointmentData)
    (formattedDate : String) (confirmUrl cancelUrl : Option String) : MessagePayload :=
  let baseMessage :=
    "\n    ━━━━━━━━━━━━━━━━━━━━━\n\n    ⚠️ *ATENCIÓN " ++ data.patientName ++
    "*\n\n    Tu turno de *HOY*:\n\n    🏥 *Servicio:* " ++ data.serviceName ++
    "\n    👨‍⚕️ *Profesional:* " ++ data.professionalName ++
    "\n    📅 *Fecha:* " ++ formattedDate ++
    "\n    🕐 *Hora:* " ++ data.time ++ " hs" ++
    "\n    📍 *Lugar:* " ++ data.locationName ++
    "\n\n    ━━━━━━━━━━━━━━━━━━━━━"
  finishTemplate isBusinessAccount "\n\n📱 *RESPONDA INMEDIATAMENTE:*" baseMessage
    confirmUrl cancelUrl

/-- `generateTemplateMessage(data)` (lines 633-647): dispatch on
`messageType`, throwing on unknown kinds. -/
def generateTemplateMessage (isBusinessAccount : Bool) (now : JsDateTime)
    (data : TemplateData) : Except String MessagePayload :=
  let formattedDate := formatAppointmentDate now data.appointmentData.date
  if data.messageType = "confirmation" then
    .ok (generateConfirmationMessage isBusinessAccount data.appointmentData formattedDate
      data.confirmUrl data.cancelUrl)
  else if data.messageType = "reminder" then
    .ok (generateReminderMessage isBusinessAccount data.appointmentData formattedDate
      data.confirmUrl data.cancelUrl)
  else if data.messageType = "urgent" then
    .ok (generateUrgentMessage isBusinessAccount data.appointmentData formattedDate
      data.confirmUrl data.cancelUrl)
  else
    .error ("Tipo de mensaje no válido: " ++ data.messageType)

/-- `generateFallbackMessage(templateData)` (lines 619-631): plain-text
re-rendering used after a rejected button send; its `default` case is the
confirmation body.  The generators are invoked on a session whose button
send just failed, but the fallback text path is the non-business branch,
embedded here by passing `isBusinessAccount := false` so the plain
rendering is selected, as the source's fallback caller consumes only the
text. -/
def generateFallbackMessage (now : JsDateTime) (data : TemplateData) : MessagePayload :=
  let formattedDate := formatAppointmentDate now data.appointmentData.date
  if data.messageType = "reminder" then
    generateReminderMessage false data.appointmentData formattedDate
      data.confirmUrl data.cancelUrl
  else if data.messageType = "urgent" then
    generateUrgentMessage false data.appointmentData formattedDate
      data.confirmUrl data.cancelUrl
  else
    generateConfirmationMessage false data.appointmentData formattedDate
      data.confirmUrl data.cancelUrl

/- ### Session registry (`WhatsAppManager`, src/services/whatsappManager.js). -/

/-- Registry state: the `instances` map, the credential-store root, and
which per-tenant credential directories exist on disk (`creds t` models
`fs.existsSync(path.join(authBaseDir, t))`). -/
structure Registry where
  instances : List (String × SessionState)
  authBaseDir : String
  creds : String → Bool

/-- `path.join(this.authBaseDir, cleanNumber)`. -/
def authDirFor (base phone : String) : String :=
  base ++ "/" ++ phone

/-- A registry with no instances; `credsPresent` is whatever credential
directories are already on disk. -/
def emptyRegistry (base : String) (credsPresent : String → Bool) : Registry :=
  { instances := [], authBaseDir := base, creds := credsPresent }

/-- `getInstance(phoneNumber)` (whatsappManager.js lines 23-48) when
`initialize()` succeeds: normalize, reuse an existing instance, otherwise
construct, insert, and initialize (which opens the transport and creates
the tenant's credential directory via `useMultiFileAuthState`). -/
def getInstanceOk (R : Registry) (phoneNumber : String) : Registry :=
  let cleanNumber := cleanPhone phoneNumber
  match mapLookup cleanNumber R.instances with
  | some _ => R
  | none =>
    let instance0 := initSession cleanNumber (authDirFor R.authBaseDir cleanNumber)
    let instance1 := { instance0 with clientActive := true }
    { R with instances := mapSet cleanNumber instance1 R.instances
             creds := fun t => if t = cleanNumber then true else R.creds t }

/-- `getInstance(phoneNumber)` when `initialize()` throws: the freshly
inserted instance is deleted again and the error propagates, so the map
is unchanged; no credential directory is removed.  (Whether the failing
`initialize` got as far as creating the directory is an external fs
detail; the map contents do not depend on it and no claim does either, so
`creds` is kept.) -/
def getInstanceFail (R : Registry) (phoneNumber : String) : Registry :=
  let cleanNumber := cleanPhone phoneNumber
  match mapLookup cleanNumber R.instances with
  | some _ => R
  | none => R

/-- `getAllInstances()` (lines 51-57): side-effect-free projection. -/
def getAllInstances (R : Registry) : List (String × ConnectionSnapshot) :=
  R.instances.map (fun kv => (kv.1, getConnectionState kv.2))

/-- `closeInstance(phoneNumber)` (lines 60-69): if present, gracefully
shut the session down and delete it from the map; credential files are
untouched. -/
def closeInstance (R : Registry) (phoneNumber : String) : Registry :=
  let cleanNumber := cleanPhone phoneNumber
  match mapLookup cleanNumber R.instances with
  | some _ => { R with instances := mapErase cleanNumber R.instances }
  | none => R

/-- `removeInstanceCompletely(phoneNumber)` (lines 72-94): if present,
gracefully shut down, delete from the map, and remove the tenant's
credential directory. -/
def removeInstanceCompletely (R : Registry) (phoneNumber : String) : Registry :=
  let cleanNumber := cleanPhone phoneNumber
  match mapLookup cleanNumber R.instances with
  | some _ =>
    { R with instances := mapErase cleanNumber R.instances
             creds := fun t => if t = cleanNumber then false else R.creds t }
  | none => R

/-- `closeAllInstances()` (lines 97-106): shut every session down and
clear the map; credential files untouched. -/
def closeAllInstances (R : Registry) : Registry :=
  { R with instances := [] }

/-- One observable event of the registry/session system.  Transport and
timer callbacks address the session stored under key `tid` and are
dropped when no such session exists (a torn-down session has no handlers
left). -/
inductive SysEvent where
  | getOk (phone : String)
  | getFail (phone : String)
  | close (phone : String)
  | removeCompletely (phone : String)
  | closeAll
  | connUpd (tid : String) (u : ConnUpdateMsg)
  | rcTimer (tid : String) (ok : Bool) (now : Nat)
  | requestQR (tid : String)

/-- System transition function.  In the `connUpd` case, a `close` update
with the logged-out reason makes the session call
`this.manager.removeInstanceCompletely(this.phoneNumber)`
(src/unnamed/part_000 lines 166-168); registry-created sessions always
carry the manager reference. -/
def sysStep (render : String → Option String) (R : Registry) : SysEvent → Registry
  | .getOk p => getInstanceOk R p
  | .getFail p => getInstanceFail R p
  | .close p => closeInstance R p
  | .removeCompletely p => removeInstanceCompletely R p
  | .closeAll => closeAllInstances R
  | .connUpd tid u =>
    match mapLookup tid R.instances with
    | none => R
    | some s =>
      let out := handleConnectionUpdate render s u
      let R' := { R with instances := mapSet tid out.1 R.instances }
      if out.2.1 then removeInstanceCompletely R' out.1.phoneNumber else R'
  | .rcTimer tid ok now =>
    match mapLookup tid R.instances with
    | none => R
    | some s => { R with instances := mapSet tid (reconnectTimerFires s ok now) R.instances }
  | .requestQR tid =>
    match mapLookup tid R.instances with
    | none => R
    | some s => { R with instances := mapSet tid (requestQRCode render s).1 R.instances }

/-- A sequence of system events applied in order. -/
def runSys (render : String → Option String) (R : Registry) (es : List SysEvent) : Registry :=
  es.foldl (sysStep render) R

/- ### Helper lemmas: substring containment. -/

theorem startsWithL_refl_append (pat rest : List Char) :
    startsWithL pat (pat ++ rest) = true := by
  induction pat with
  | nil => rfl
  | cons a as ih => simp [startsWithL, ih]

theorem subL_of_startsWithL {pat l : List Char} (h : startsWithL pat l = true) :
    subL pat l = true := by
  cases l with
  | nil => exact h
  | cons b bs => simp [subL, h]

theorem subL_self_append (pat rest : List Char) : subL pat (pat ++ rest) = true :=
  subL_of_startsWithL (startsWithL_refl_append pat rest)

theorem subL_cons_of_subL {pat l : List Char} (b : Char) (h : subL pat l = true) :
    subL pat (b :: l) = true := by
  simp [subL, h]

theorem subL_append_left {pat : List Char} (a : List Char) {l : List Char}
    (h : subL pat l = true) : subL pat (a ++ l) = true := by
  induction a with
  | nil => exact h
  | cons x xs ih => exact subL_cons_of_subL x ih

theorem subL_at_offset (a pat b : List Char) : subL pat (a ++ (pat ++ b)) = true :=
  subL_append_left a (subL_self_append pat b)

theorem mem_of_startsWithL {pat l : List Char} {c : Char}
    (h : startsWithL pat l = true) (hc : c ∈ pat) : c ∈ l := by
  induction pat generalizing l with
  | nil => cases hc
  | cons a as ih =>
    cases l with
    | nil => cases h
    | cons b bs =>
      simp only [startsWithL, Bool.and_eq_true, beq_iff_eq] at h
      rcases List.mem_cons.mp hc with rfl | hc'
      · exact h.1 ▸ List.mem_cons_self _ _
      · exact List.mem_cons_of_mem _ (ih h.2 hc')

theorem mem_of_subL {pat l : List Char} {c : Char}
    (h : subL pat l = true) (hc : c ∈ pat) : c ∈ l := by
  induction l with
  | nil =>
    cases pat with
    | nil => cases hc
    | cons a as => cases h
  | cons b bs ih =>
    simp only [subL, Bool.or_eq_true] at h
    rcases h with h | h
    · exact mem_of_startsWithL h hc
    · exact List.mem_cons_of_mem _ (ih h)

theorem containsSub_eq_false {pat s : String} {c : Char}
    (hc : c ∈ pat.data) (hs : c ∉ s.data) : containsSub pat s = false := by
  by_contra h
  exact hs (mem_of_subL (by simpa [containsSub] using h) hc)

theorem containsSub_at_offset (a pat b : String) :
    containsSub pat (a ++ (pat ++ b)) = true := by
  simpa [containsSub, String.data_append] using
    subL_at_offset a.data pat.data b.data

theorem containsSub_self_append (pat rest : String) : containsSub pat (pat ++ rest) = true := by
  simpa [containsSub, String.data_append] using subL_self_append pat.data rest.data

/- ### Helper lemmas: the association-list map. -/

theorem mapLookup_mapSet_self {α : Type} (k : String) (v : α) (m : List (String × α)) :
    mapLookup k (mapSet k v m) = some v := by
  induction m with
  | nil => simp [mapSet, mapLookup]
  | cons kv rest ih =>
    by_cases h : kv.1 = k
    · simp [mapSet, mapLookup, h]
    · simpa [mapSet, mapLookup, h] using ih

theorem mapLookup_mapErase_self {α : Type} (k : String) (m : List (String × α)) :
    mapLookup k (mapErase k m) = none := by
  induction m with
  | nil => rfl
  | cons kv rest ih =>
    by_cases h : kv.1 = k
    · have hb : (kv.1 != k) = false := by simp [h]
      simpa [mapErase, List.filter, hb] using ih
    · have hb : (kv.1 != k) = true := by simp [h]
      simpa [mapErase, List.filter, hb, mapLookup, h] using ih

theorem mapLookup_some_mem {α : Type} {k : String} {m : List (String × α)} {v : α}
    (h : mapLookup k m = some v) : (k, v) ∈ m := by
  induction m with
  | nil => cases h
  | cons kv rest ih =>
    by_cases hk : kv.1 = k
    · simp only [mapLookup, hk, if_pos] at h
      obtain ⟨k1, v1⟩ := kv
      simp_all
    · simp only [mapLookup, hk, if_neg, not_false_iff] at h
      exact List.mem_cons_of_mem _ (ih h)

theorem mem_mapSet {α : Type} {kv : String × α} {k : String} {v : α}
    {m : List (String × α)} (h : kv ∈ mapSet k v m) : kv = (k, v) ∨ kv ∈ m := by
  induction m with
  | nil => simpa [mapSet] using h
  | cons kv' rest ih =>
    by_cases hk : kv'.1 = k
    · simp only [mapSet, hk, if_pos] at h
      rcases List.mem_cons.mp h with rfl | h'
      · exact Or.inl rfl
      · exact Or.inr (List.mem_cons_of_mem _ h')
    · simp only [mapSet, hk, if_neg, not_false_iff] at h
      rcases List.mem_cons.mp h with rfl | h'
      · exact Or.inr (List.mem_cons_self _ _)
      · rcases ih h' with h'' | h''
        · exact Or.inl h''
        · exact Or.inr (List.mem_cons_of_mem _ h'')

theorem mem_mapErase {α : Type} {kv : String × α} {k : String} {m : List (String × α)}
    (h : kv ∈ mapErase k m) : kv ∈ m :=
  List.mem_of_mem_filter h

theorem mapLookup_getAllInstances (k : String) (R : Registry) :
    mapLookup k (getAllInstances R) = (mapLookup k R.instances).map getConnectionState := by
  unfold getAllInstances
  induction R.instances with
  | nil => rfl
  | cons kv rest ih =>
    by_cases h : kv.1 = k
    · simp [mapLookup, h]
    · simpa [mapLookup, h] using ih

/- ### Helper lemmas: session handlers. -/

theorem scheduleReconnect_phoneNumber (s : SessionState) :
    (scheduleReconnect s).phoneNumber = s.phoneNumber := by
  unfold scheduleReconnect
  split
  · rfl
  · split <;> rfl

theorem onCloseUpdate_phoneNumber (s : SessionState) (r : Option Nat) (ec : Option String) :
    (onCloseUpdate s r ec).1.phoneNumber = s.phoneNumber := by
  unfold onCloseUpdate
  split
  · rfl
  · split
    · exact scheduleReconnect_phoneNumber _
    · split
      · exact scheduleReconnect_phoneNumber _
      · rfl

theorem qrPhase_phoneNumber (render : String → Option String) (s : SessionState)
    (q : Option String) : (qrPhase render s q).1.phoneNumber = s.phoneNumber := by
  cases q with
  | none => rfl
  | some qr =>
    by_cases hs : s.shouldGenerateQR = true <;> simp [qrPhase, hs, generateQRCode]

theorem handleConnectionUpdate_phoneNumber (render : String → Option String)
    (s : SessionState) (u : ConnUpdateMsg) :
    (handleConnectionUpdate render s u).1.phoneNumber = s.phoneNumber := by
  unfold handleConnectionUpdate
  rcases u with ⟨conn, dr, dec, qr, biz⟩
  cases conn with
  | none => exact qrPhase_phoneNumber _ _ _
  | some sig =>
    cases sig with
    | close =>
      exact (onCloseUpdate_phoneNumber _ _ _).trans (qrPhase_phoneNumber _ _ _)
    | openS => exact qrPhase_phoneNumber _ _ _
    | connectingS => exact qrPhase_phoneNumber _ _ _

/-- `removeInstanceCompletely` is requested by the close handler exactly
when the disconnect reason is the logged-out code. -/
theorem onCloseUpdate_snd_eq_true {s : SessionState} {r : Option Nat} {ec : Option String}
    (h : (onCloseUpdate s r ec).2 = true) : r = some DisconnectReason.loggedOut := by
  by_contra hr
  unfold onCloseUpdate at h
  rw [if_neg hr] at h
  revert h
  split
  · simp
  · split <;> simp

theorem handleConnectionUpdate_remove {render : String → Option String}
    {s : SessionState} {u : ConnUpdateMsg}
    (h : (handleConnectionUpdate render s u).2.1 = true) :
    u.connection = some ConnSignal.close ∧
      u.disconnectReason = some DisconnectReason.loggedOut := by
  unfold handleConnectionUpdate at h
  rcases u with ⟨conn, dr, dec, qr, biz⟩
  cases conn with
  | none => simp at h
  | some sig =>
    cases sig with
    | close => exact ⟨rfl, onCloseUpdate_snd_eq_true h⟩
    | openS => simp at h
    | connectingS => simp at h

/- ### Helper lemmas: reconnection controller. -/

/-- Inductive invariant of the controller: the attempt counter is within
its bound, and a pending timer implies the in-progress guard is set. -/
def rcInv (s : SessionState) : Prop :=
  s.reconnectAttempts ≤ s.maxReconnectAttempts ∧
    (s.reconnectTimeout.isSome → s.isReconnecting = true)

theorem rcInv_initSession (phone dir : String) : rcInv (initSession phone dir) := by
  simp [rcInv, initSession]

theorem rcInv_scheduleReconnect {s : SessionState} (h : rcInv s) :
    rcInv (scheduleReconnect s) := by
  unfold scheduleReconnect
  split
  · exact h
  next hn =>
    split
    · exact ⟨h.1, fun hsome => absurd (h.2 hsome) hn⟩
    · next hmax =>
      exact ⟨Nat.succ_le_of_lt (Nat.lt_of_not_le hmax), fun _ => rfl⟩

theorem rcInv_reconnectTimerFires {s : SessionState} (h : rcInv s) (ok : Bool) (now : Nat) :
    rcInv (reconnectTimerFires s ok now) := by
  unfold reconnectTimerFires
  split
  · exact h
  · cases ok with
    | true => exact ⟨h.1, by simp⟩
    | false =>
      by_cases hlt : s.reconnectAttempts < s.maxReconnectAttempts <;>
        simp [rcInv, hlt, h.1]

theorem rcInv_rcStep {s : SessionState} (h : rcInv s) (e : RcEvent) : rcInv (rcStep s e) := by
  cases e with
  | sched => exact rcInv_scheduleReconnect h
  | fire ok now => exact rcInv_reconnectTimerFires h ok now

theorem rcInv_runRc {s : SessionState} (h : rcInv s) (es : List RcEvent) :
    rcInv (runRc s es) := by
  induction es generalizing s with
  | nil => exact h
  | cons e rest ih => exact ih (rcInv_rcStep h e)

/-- In a quiescent exhausted state that has already moved to `failed`,
every further controller event is a no-op. -/
theorem rcStep_fixed {s : SessionState}
    (hmax : s.maxReconnectAttempts ≤ s.reconnectAttempts)
    (hrec : s.isReconnecting = false)
    (ht : s.reconnectTimeout = none)
    (hst : s.connectionState = ConnState.failed)
    (e : RcEvent) : rcStep s e = s := by
  cases e with
  | sched =>
    show scheduleReconnect s = s
    unfold scheduleReconnect
    rw [hrec, if_neg (by simp), if_pos hmax]
    cases s
    simp_all
  | fire ok now =>
    show reconnectTimerFires s ok now = s
    unfold reconnectTimerFires
    rw [ht]

theorem runRc_fixed {s : SessionState}
    (hmax : s.maxReconnectAttempts ≤ s.reconnectAttempts)
    (hrec : s.isReconnecting = false)
    (ht : s.reconnectTimeout = none)
    (hst : s.connectionState = ConnState.failed)
    (es : List RcEvent) : runRc s es = s := by
  induction es with
  | nil => rfl
  | cons e rest ih =>
    show runRc (rcStep s e) rest = s
    rw [rcStep_fixed hmax hrec ht hst e, ih]

/- ### Helper lemmas: date formatting markers. -/

/-- The plain portion of a formatted date: weekday name, day number and
month name never contain the marker characters `H` (only in `"HOY"`) or
`Ñ` (only in `"MAÑANA"`). -/
theorem dayName_no_marker (w : Nat) (hw : w < 7) :
    'H' ∉ (dayNames.getD w "").data ∧ 'Ñ' ∉ (dayNames.getD w "").data := by
  interval_cases w <;> decide

theorem monthName_no_marker (m : Nat) (h1 : 1 ≤ m) (h12 : m ≤ 12) :
    'H' ∉ (monthNames.getD (m - 1) "").data ∧ 'Ñ' ∉ (monthNames.getD (m - 1) "").data := by
  interval_cases m <;> decide

theorem dayNumber_no_marker (n : Nat) (h : n ≤ 31) :
    'H' ∉ (toString n).data ∧ 'Ñ' ∉ (toString n).data := by
  interval_cases n <;> decide

theorem jsGetDay_lt (d : CalDate) : jsGetDay d < 7 := by
  unfold jsGetDay
  exact Nat.mod_lt _ (by norm_num)

/-- The plain date string of a valid date contains neither marker
character. -/
theorem plainDateStr_no_marker (d : CalDate) (hv : validDate d) :
    'H' ∉ (plainDateStr d).data ∧ 'Ñ' ∉ (plainDateStr d).data := by
  obtain ⟨h1, h12, hd1, hdM⟩ := hv
  have hday : d.day ≤ 31 := le_trans hdM (by
    unfold daysInMonth
    split
    · split <;> norm_num
    · split <;> norm_num)
  have hw := dayName_no_marker (jsGetDay d) (jsGetDay_lt d)
  have hm := monthName_no_marker d.month h1 h12
  have hn := dayNumber_no_marker d.day hday
  unfold plainDateStr
  constructor <;>
  · simp only [String.data_append, List.mem_append]
    rintro ((((hx | hx) | hx) | hx) | hx)
    · first
        | exact hw.1 hx
        | exact hw.2 hx
    · revert hx; decide
    · first
        | exact hn.1 hx
        | exact hn.2 hx
    · revert hx; decide
    · first
        | exact hm.1 hx
        | exact hm.2 hx

/- ### Helper lemmas: the send gate. -/

theorem waitForConnection_ok_mem {trace : List SessionState} {s : SessionState}
    (h : waitForConnection trace = Except.ok s) : s ∈ trace ∧ s.isConnected = true := by
  induction trace with
  | nil => cases h
  | cons t rest ih =>
    unfold waitForConnection at h
    by_cases hc : t.isConnected = true
    · rw [if_pos hc] at h
      cases h
      exact ⟨List.mem_cons_self _ _, hc⟩
    · rw [if_neg hc] at h
      split at h
      · cases h
      · obtain ⟨hm, hcon⟩ := ih h
        exact ⟨List.mem_cons_of_mem _ hm, hcon⟩

/- ### Concrete inputs used by witnesses and counterexamples. -/

/-- A concrete renderer outcome for `QRCode.toDataURL`. -/
def renderEx : String → Option String := fun raw => some ("data:image/png;base64," ++ raw)

def sessionEx : SessionState :=
  initSession "5491112345678" "./auth_info_baileys/5491112345678"

def registryEx : Registry :=
  { instances := [("5491112345678", sessionEx)]
    authBaseDir := "./auth_info_baileys"
    creds := fun t => t == "5491112345678" }

def apptEx : AppointmentData :=
  { patientName := "Ana"
    serviceName := "Consulta"
    professionalName := "Dra. Perez"
    date := ⟨2026, 10, 11⟩
    time := "10:30"
    duration := "30"
    locationName := "Clinica Centro"
    locationAddress := "Calle 1 123" }

def nowEx : JsDateTime := ⟨2026, 10, 11, 15, 45, 30⟩

/- ### Claim C1. -/

/-- A logged-out close fully resets the session and produces the
removal request, independently of any `qr` field in the same update. -/
theorem handle_loggedOut (render : String → Option String) (s : SessionState)
    (u : ConnUpdateMsg) (hc : u.connection = some ConnSignal.close)
    (hr : u.disconnectReason = some DisconnectReason.loggedOut) :
    (handleConnectionUpdate render s u).2.1 = true ∧
    (handleConnectionUpdate render s u).1 =
      { (qrPhase render s u.qr).1 with
          connectionState := .logged_out
          isConnected := false
          reconnectAttempts := 0
          qrCode := none
          latestQR := none
          isBusinessAccount := false
          isReconnecting := false
          reconnectTimeout := none } := by
  constructor
  · simp [handleConnectionUpdate, hc, onCloseUpdate, hr]
  · simp [handleConnectionUpdate, hc, onCloseUpdate, hr]

theorem sysStep_connUpd_some {render : String → Option String} {R : Registry}
    {tid : String} {s : SessionState} (u : ConnUpdateMsg)
    (hs : mapLookup tid R.instances = some s) :
    sysStep render R (SysEvent.connUpd tid u) =
      (let out := handleConnectionUpdate render s u
       let R' := { R with instances := mapSet tid out.1 R.instances }
       if out.2.1 then removeInstanceCompletely R' out.1.phoneNumber else R') := by
  simp only [sysStep]
  rw [hs]

/-- C1: a transport closure with the session-revoked (logged out) reason
drives the session to `logged_out` with its counters, flags and
pairing-code cache reset and its timer cancelled, invokes the registry's
`removeInstanceCompletely` for the tenant — after which the tenant is
absent from the instances map and from `getAllInstances` and its
credential store is gone — and no system event other than a
`removeInstanceCompletely` call or a logged-out closure ever deletes a
credential store. -/
theorem C1_session_revoked_teardown :
    (∀ (render : String → Option String) (R : Registry) (tid : String)
       (s : SessionState) (u : ConnUpdateMsg),
       mapLookup tid R.instances = some s → s.phoneNumber = tid → cleanPhone tid = tid →
       u.connection = some ConnSignal.close →
       u.disconnectReason = some DisconnectReason.loggedOut →
       (handleConnectionUpdate render s u).2.1 = true ∧
       (handleConnectionUpdate render s u).1.connectionState = ConnState.logged_out ∧
       (handleConnectionUpdate render s u).1.reconnectAttempts = 0 ∧
       (handleConnectionUpdate render s u).1.isReconnecting = false ∧
       (handleConnectionUpdate render s u).1.isBusinessAccount = false ∧
       (handleConnectionUpdate render s u).1.qrCode = none ∧
       (handleConnectionUpdate render s u).1.latestQR = none ∧
       (handleConnectionUpdate render s u).1.reconnectTimeout = none ∧
       mapLookup tid (sysStep render R (SysEvent.connUpd tid u)).instances = none ∧
       mapLookup tid (getAllInstances (sysStep render R (SysEvent.connUpd tid u))) = none ∧
       (sysStep render R (SysEvent.connUpd tid u)).creds tid = false) ∧
    (∀ (render : String → Option String) (R : Registry) (e : SysEvent) (t : String),
       R.creds t = true → (sysStep render R e).creds t = false →
       (∃ p, e = SysEvent.removeCompletely p ∧ cleanPhone p = t) ∨
       (∃ tid u, e = SysEvent.connUpd tid u ∧ u.connection = some ConnSignal.close ∧
          u.disconnectReason = some DisconnectReason.loggedOut)) := by
  constructor
  · intro render R tid s u hs hph hclean hc hr
    obtain ⟨hfl, hst⟩ := handle_loggedOut render s u hc hr
    have hph' : (handleConnectionUpdate render s u).1.phoneNumber = tid :=
      (handleConnectionUpdate_phoneNumber render s u).trans hph
    have hsys : sysStep render R (SysEvent.connUpd tid u) =
        removeInstanceCompletely
          { R with instances := mapSet tid (handleConnectionUpdate render s u).1 R.instances }
          (handleConnectionUpdate render s u).1.phoneNumber := by
      rw [sysStep_connUpd_some u hs]
      simp only [hfl, if_true]
    have hlook : mapLookup tid
        (mapSet tid (handleConnectionUpdate render s u).1 R.instances) =
        some (handleConnectionUpdate render s u).1 := mapLookup_mapSet_self _ _ _
    have hclean' : cleanPhone (handleConnectionUpdate render s u).1.phoneNumber = tid := by
      rw [hph', hclean]
    have hrm : removeInstanceCompletely
        { R with instances := mapSet tid (handleConnectionUpdate render s u).1 R.instances }
        (handleConnectionUpdate render s u).1.phoneNumber =
        { R with
            instances := mapErase tid
              (mapSet tid (handleConnectionUpdate render s u).1 R.instances)
            creds := fun t => if t = tid then false else R.creds t } := by
      simp only [removeInstanceCompletely, hclean', hlook]
    refine ⟨hfl, by rw [hst], by rw [hst], by rw [hst], by rw [hst], by rw [hst],
      by rw [hst], by rw [hst], ?_, ?_, ?_⟩
    · rw [hsys, hrm]
      exact mapLookup_mapErase_self _ _
    · rw [hsys, hrm, mapLookup_getAllInstances]
      rw [show ({ R with
            instances := mapErase tid
              (mapSet tid (handleConnectionUpdate render s u).1 R.instances)
            creds := fun t => if t = tid then false else R.creds t } : Registry).instances =
          mapErase tid (mapSet tid (handleConnectionUpdate render s u).1 R.instances) from rfl]
      rw [mapLookup_mapErase_self]
      rfl
    · rw [hsys, hrm]
      simp
  · intro render R e t ht hf
    cases e with
    | getOk p =>
      exfalso
      simp only [sysStep, getInstanceOk] at hf
      split at hf
      · rw [ht] at hf; cases hf
      · simp only at hf
        split at hf
        · cases hf
        · rw [ht] at hf; cases hf
    | getFail p =>
      exfalso
      simp only [sysStep, getInstanceFail] at hf
      split at hf <;> (rw [ht] at hf; cases hf)
    | close p =>
      exfalso
      simp only [sysStep, closeInstance] at hf
      split at hf
      · simp only at hf; rw [ht] at hf; cases hf
      · rw [ht] at hf; cases hf
    | removeCompletely p =>
      simp only [sysStep, removeInstanceCompletely] at hf
      split at hf
      · simp only at hf
        split at hf
        · next heq => exact Or.inl ⟨p, rfl, heq.symm⟩
        · rw [ht] at hf; cases hf
      · exfalso; rw [ht] at hf; cases hf
    | closeAll =>
      exfalso
      simp only [sysStep, closeAllInstances] at hf
      rw [ht] at hf; cases hf
    | connUpd tid u =>
      simp only [sysStep] at hf
      split at hf
      · exfalso; rw [ht] at hf; cases hf
      · next s hs =>
        split at hf
        · next hflag =>
          simp only [removeInstanceCompletely] at hf
          split at hf
          · simp only at hf
            split at hf
            · obtain ⟨hc, hr⟩ := handleConnectionUpdate_remove hflag
              exact Or.inr ⟨tid, u, rfl, hc, hr⟩
            · exfalso; rw [ht] at hf; cases hf
          · exfalso; rw [ht] at hf; cases hf
        · exfalso; rw [ht] at hf; cases hf
    | rcTimer tid ok now =>
      exfalso
      simp only [sysStep] at hf
      split at hf
      · rw [ht] at hf; cases hf
      · simp only at hf; rw [ht] at hf; cases hf
    | requestQR tid =>
      exfalso
      simp only [sysStep] at hf
      split at hf
      · rw [ht] at hf; cases hf
      · simp only at hf; rw [ht] at hf; cases hf

/-- The logged-out close event used by the C1 witness. -/
def loggedOutMsg : ConnUpdateMsg :=
  { connection := some ConnSignal.close
    disconnectReason := some DisconnectReason.loggedOut
    disconnectErrorCode := none
    qr := none
    accountIsBusiness := false }

/-- C1 witness: the teardown theorem applied to a concrete registry with
one tenant receiving a logged-out closure, and the frame limb applied to
a concrete `removeCompletely` call. -/
theorem C1_witness :
    (mapLookup "5491112345678"
        (sysStep renderEx registryEx
          (SysEvent.connUpd "5491112345678" loggedOutMsg)).instances = none ∧
      (sysStep renderEx registryEx
        (SysEvent.connUpd "5491112345678" loggedOutMsg)).creds "5491112345678" = false) ∧
    ((∃ p, SysEvent.removeCompletely "5491112345678" = SysEvent.removeCompletely p ∧
        cleanPhone p = "5491112345678") ∨
      (∃ tid u, SysEvent.removeCompletely "5491112345678" = SysEvent.connUpd tid u ∧
        u.connection = some ConnSignal.close ∧
        u.disconnectReason = some DisconnectReason.loggedOut)) := by
  constructor
  · have h := C1_session_revoked_teardown.1 renderEx registryEx "5491112345678" sessionEx
      loggedOutMsg (by decide) rfl (by decide) rfl rfl
    exact ⟨h.2.2.2.2.2.2.2.2.1, h.2.2.2.2.2.2.2.2.2.2⟩
  · exact C1_session_revoked_teardown.2 renderEx registryEx
      (SysEvent.removeCompletely "5491112345678") "5491112345678" (by decide) (by decide)

/- ### Claim C2. -/

/-- C2 counterexample: run the controller through one scheduled attempt
that fails, then the 1-second re-entry; the counter now equals the bound
while `isReconnecting` is still true (the second timer is pending).  A
further controller invocation at this point is a no-op: it does NOT set
`connectionState` to `failed`, contradicting the claim that once
`reconnectAttempts` has reached `maxReconnectAttempts` a further
invocation sets the state to `failed`. -/
theorem C2_counterexample :
    (runRc (initSession "5491112345678" "d")
        [RcEvent.sched, RcEvent.fire false 0, RcEvent.sched]).reconnectAttempts =
      (runRc (initSession "5491112345678" "d")
        [RcEvent.sched, RcEvent.fire false 0, RcEvent.sched]).maxReconnectAttempts ∧
    scheduleReconnect (runRc (initSession "5491112345678" "d")
        [RcEvent.sched, RcEvent.fire false 0, RcEvent.sched]) =
      runRc (initSession "5491112345678" "d")
        [RcEvent.sched, RcEvent.fire false 0, RcEvent.sched] ∧
    (scheduleReconnect (runRc (initSession "5491112345678" "d")
        [RcEvent.sched, RcEvent.fire false 0, RcEvent.sched])).connectionState ≠
      ConnState.failed := by
  decide

/-- C2 amended: over every controller event sequence from a fresh
session, `reconnectAttempts` never exceeds `maxReconnectAttempts`; an
invocation at exhaustion never schedules a new timer; when additionally
no reconnection is in progress it moves the state to `failed`; and from a
quiescent exhausted state, after that invocation no controller event
sequence changes the state again. -/
theorem C2_reconnect_bound_amended :
    (∀ (phone dir : String) (es : List RcEvent),
       (runRc (initSession phone dir) es).reconnectAttempts ≤
         (runRc (initSession phone dir) es).maxReconnectAttempts) ∧
    (∀ s : SessionState, s.maxReconnectAttempts ≤ s.reconnectAttempts →
       (scheduleReconnect s).reconnectTimeout = s.reconnectTimeout) ∧
    (∀ s : SessionState, s.maxReconnectAttempts ≤ s.reconnectAttempts →
       s.isReconnecting = false →
       (scheduleReconnect s).connectionState = ConnState.failed) ∧
    (∀ (s : SessionState) (es : List RcEvent),
       s.maxReconnectAttempts ≤ s.reconnectAttempts → s.isReconnecting = false →
       s.reconnectTimeout = none →
       runRc (scheduleReconnect s) es = scheduleReconnect s) := by
  refine ⟨?_, ?_, ?_, ?_⟩
  · intro phone dir es
    exact (rcInv_runRc (rcInv_initSession phone dir) es).1
  · intro s hmax
    unfold scheduleReconnect
    rw [if_pos hmax]
    split
    · rfl
    · rfl
  · intro s hmax hrec
    unfold scheduleReconnect
    rw [hrec, if_neg (by simp), if_pos hmax]
  · intro s es hmax hrec ht
    have hsched : scheduleReconnect s =
        { s with connectionState := .failed, isReconnecting := false } := by
      unfold scheduleReconnect
      rw [hrec, if_neg (by simp), if_pos hmax]
    rw [hsched]
    apply runRc_fixed
    · exact hmax
    · rfl
    · exact ht
    · rfl

/-- C2 witness: the amended theorem applied at a concrete exhausted
quiescent state. -/
theorem C2_witness :
    (runRc (initSession "5491112345678" "d") [RcEvent.sched]).reconnectAttempts ≤
      (runRc (initSession "5491112345678" "d") [RcEvent.sched]).maxReconnectAttempts ∧
    (scheduleReconnect
        { initSession "5491112345678" "d" with reconnectAttempts := 2 }).connectionState =
      ConnState.failed ∧
    runRc (scheduleReconnect { initSession "5491112345678" "d" with reconnectAttempts := 2 })
        [RcEvent.sched, RcEvent.fire false 7, RcEvent.sched] =
      scheduleReconnect { initSession "5491112345678" "d" with reconnectAttempts := 2 } := by
  refine ⟨C2_reconnect_bound_amended.1 "5491112345678" "d" [RcEvent.sched], ?_, ?_⟩
  · exact C2_reconnect_bound_amended.2.2.1 _ (by decide) (by decide)
  · exact C2_reconnect_bound_amended.2.2.2 _ _ (by decide) (by decide) (by decide)

/- ### Claim C3. -/

/-- C3 counterexample: request a code before any raw code exists, then
one raw-code emission (exactly one render), then a second explicit
request with the raw code unchanged.  The second request performs one
MORE render call (it re-renders the cached raw code) instead of the zero
renders the claim requires. -/
theorem C3_counterexample :
    (requestQRCode renderEx (initSession "5491112345678" "d")).2 = 0 ∧
    (handleConnectionUpdate renderEx
        (requestQRCode renderEx (initSession "5491112345678" "d")).1
        { connection := none, disconnectReason := none, disconnectErrorCode := none
          qr := some "abc123", accountIsBusiness := false }).2.2 = 1 ∧
    (requestQRCode renderEx
        (handleConnectionUpdate renderEx
          (requestQRCode renderEx (initSession "5491112345678" "d")).1
          { connection := none, disconnectReason := none, disconnectErrorCode := none
            qr := some "abc123", accountIsBusiness := false }).1).1.latestQR =
      (handleConnectionUpdate renderEx
        (requestQRCode renderEx (initSession "5491112345678" "d")).1
        { connection := none, disconnectReason := none, disconnectErrorCode := none
          qr := some "abc123", accountIsBusiness := false }).1.latestQR ∧
    (requestQRCode renderEx
        (handleConnectionUpdate renderEx
          (requestQRCode renderEx (initSession "5491112345678" "d")).1
          { connection := none, disconnectReason := none, disconnectErrorCode := none
            qr := some "abc123", accountIsBusiness := false }).1).2 ≠ 0 := by
  decide

/-- C3 amended: requesting a code before any raw code exists renders
nothing; the subsequent raw-code emission performs exactly one render and
moves the session to `qr_ready` with the rendered code cached; a second
explicit request with the raw code unchanged performs exactly one
additional render call, recomputing the same rendered value from the
cached raw code (it is not served from the rendered cache); the
zero-render cached read is `getQRCode`. -/
theorem C3_qr_request_render_amended (render : String → Option String)
    (phone dir raw : String) :
    (requestQRCode render (initSession phone dir)).2 = 0 ∧
    (handleConnectionUpdate render (requestQRCode render (initSession phone dir)).1
        { connection := none, disconnectReason := none, disconnectErrorCode := none
          qr := some raw, accountIsBusiness := false }).2.2 = 1 ∧
    (handleConnectionUpdate render (requestQRCode render (initSession phone dir)).1
        { connection := none, disconnectReason := none, disconnectErrorCode := none
          qr := some raw, accountIsBusiness := false }).1.connectionState =
      ConnState.qr_ready ∧
    (handleConnectionUpdate render (requestQRCode render (initSession phone dir)).1
        { connection := none, disconnectReason := none, disconnectErrorCode := none
          qr := some raw, accountIsBusiness := false }).1.qrCode =
      some ((render raw).getD raw) ∧
    (requestQRCode render
        (handleConnectionUpdate render (requestQRCode render (initSession phone dir)).1
          { connection := none, disconnectReason := none, disconnectErrorCode := none
            qr := some raw, accountIsBusiness := false }).1).2 = 1 ∧
    (requestQRCode render
        (handleConnectionUpdate render (requestQRCode render (initSession phone dir)).1
          { connection := none, disconnectReason := none, disconnectErrorCode := none
            qr := some raw, accountIsBusiness := false }).1).1.qrCode =
      some ((render raw).getD raw) ∧
    getQRCode
        (handleConnectionUpdate render (requestQRCode render (initSession phone dir)).1
          { connection := none, disconnectReason := none, disconnectErrorCode := none
            qr := some raw, accountIsBusiness := false }).1 =
      some ((render raw).getD raw) := by
  refine ⟨rfl, rfl, rfl, rfl, rfl, rfl, rfl⟩

/- ### Claim C4. -/

/-- C4 counterexample: a session in state `disconnected` (not
`connected`) calls `sendMessage` while the connection opens during the
poll.  The call is not rejected: the message IS handed to the transport,
contradicting the claim that any send while not connected is rejected
immediately with no message handed over; and the pre-send rejection path
(shown here with the one-observation timeout) emits zero telemetry,
contradicting the claimed failure telemetry. -/
theorem C4_counterexample :
    (initSession "5491112345678" "d").connectionState ≠ ConnState.connected ∧
    (initSession "5491112345678" "d").isConnected = false ∧
    (sendMessageModel
        [initSession "5491112345678" "d",
         (handleConnectionUpdate renderEx (initSession "5491112345678" "d")
           { connection := some ConnSignal.openS, disconnectReason := none
             disconnectErrorCode := none, qr := none, accountIsBusiness := false }).1]
        true).handedToTransport = true ∧
    (sendMessageModel
        [initSession "5491112345678" "d",
         (handleConnectionUpdate renderEx (initSession "5491112345678" "d")
           { connection := some ConnSignal.openS, disconnectReason := none
             disconnectErrorCode := none, qr := none, accountIsBusiness := false }).1]
        true).threw = none ∧
    (sendMessageModel [initSession "5491112345678" "d"] true).threw ≠ none ∧
    (sendMessageModel [initSession "5491112345678" "d"] true).telemetryCount = 0 := by
  decide

/-- C4 amended: `sendMessage` while not connected first waits for the
connection.  It rejects immediately only when the state is `error` or
`logged_out` — with nothing handed to the transport and no telemetry;
in every other not-connected state the gate polls again instead of
rejecting; a message is handed to the transport only if a polled
observation saw `isConnected = true`; and any outcome that hands nothing
to the transport emits no failure telemetry (telemetry accompanies only
transport send failures). -/
theorem C4_send_gate_amended :
    (∀ (s : SessionState) (rest : List SessionState), s.isConnected = false →
       s.connectionState ≠ ConnState.error → s.connectionState ≠ ConnState.logged_out →
       waitForConnection (s :: rest) = waitForConnection rest) ∧
    (∀ (s : SessionState) (rest : List SessionState) (transportOk : Bool),
       s.isConnected = false →
       (s.connectionState = ConnState.error ∨ s.connectionState = ConnState.logged_out) →
       sendMessageModel (s :: rest) transportOk =
         { threw := some ("No se puede conectar: " ++ connStateStr s.connectionState)
           handedToTransport := false, telemetryCount := 0 }) ∧
    (∀ (trace : List SessionState) (transportOk : Bool),
       (sendMessageModel trace transportOk).handedToTransport = true →
       ∃ s, s ∈ trace ∧ s.isConnected = true) ∧
    (∀ (trace : List SessionState) (transportOk : Bool),
       (sendMessageModel trace transportOk).handedToTransport = false →
       (sendMessageModel trace transportOk).telemetryCount = 0) := by
  refine ⟨?_, ?_, ?_, ?_⟩
  · intro s rest hc he hl
    unfold waitForConnection
    rw [if_neg (by simp [hc]), if_neg (by simp [he, hl])]
    cases rest <;> rfl
  · intro s rest transportOk hc hel
    unfold sendMessageModel waitForConnection
    rw [if_neg (by simp [hc]), if_pos hel]
  · intro trace transportOk h
    unfold sendMessageModel at h
    split at h
    · cases h
    · next s hw =>
      obtain ⟨hm, hc⟩ := waitForConnection_ok_mem hw
      exact ⟨s, hm, hc⟩
  · intro trace transportOk h
    unfold sendMessageModel at h ⊢
    split at h
    · rfl
    · next s hw =>
      split at h
      · split
        · rfl
        · rfl
      · by_cases hok : transportOk = true
        · simp only [if_pos hok] at h
          cases h
        · simp only [if_neg hok] at h
          cases h

/-- C4 witness: the amended theorem applied to a concrete `logged_out`
session (immediate rejection, no hand-off, no telemetry) and to a
concrete trace. -/
theorem C4_witness :
    sendMessageModel
        [{ initSession "5491112345678" "d" with connectionState := ConnState.logged_out }]
        true =
      { threw := some ("No se puede conectar: " ++
          connStateStr ({ initSession "5491112345678" "d" with
            connectionState := ConnState.logged_out } : SessionState).connectionState)
        handedToTransport := false, telemetryCount := 0 } ∧
    waitForConnection [initSession "5491112345678" "d"] =
      waitForConnection ([] : List SessionState) := by
  constructor
  · exact C4_send_gate_amended.2.1 _ [] true rfl (Or.inr rfl)
  · exact C4_send_gate_amended.1 _ [] rfl (by decide) (by decide)

/- ### Claim C5. -/

theorem cleanPhone_all_digits (s : String) :
    (cleanPhone s).data.all Char.isDigit = true := by
  unfold cleanPhone
  exact List.all_eq_true.mpr (fun c hc => (List.mem_filter.mp hc).2)

/-- Every key the registry ever stores is digits-only. -/
def keysDigitsOnly (R : Registry) : Prop :=
  ∀ kv ∈ R.instances, (kv.1).data.all Char.isDigit = true

theorem keysDigitsOnly_mapSet {R : Registry} {k : String} {v : SessionState}
    (hR : keysDigitsOnly R) (hk : k.data.all Char.isDigit = true) :
    ∀ kv ∈ mapSet k v R.instances, (kv.1).data.all Char.isDigit = true := by
  intro kv hkv
  rcases mem_mapSet hkv with rfl | hmem
  · exact hk
  · exact hR kv hmem

theorem mapLookup_key_digits {R : Registry} {k : String} {v : SessionState}
    (hR : keysDigitsOnly R) (h : mapLookup k R.instances = some v) :
    k.data.all Char.isDigit = true :=
  hR (k, v) (mapLookup_some_mem h)

theorem keysDigitsOnly_sysStep (render : String → Option String) {R : Registry}
    (hR : keysDigitsOnly R) (e : SysEvent) : keysDigitsOnly (sysStep render R e) := by
  cases e with
  | getOk p =>
    simp only [sysStep, getInstanceOk]
    split
    · exact hR
    · exact keysDigitsOnly_mapSet hR (cleanPhone_all_digits p)
  | getFail p =>
    simp only [sysStep, getInstanceFail]
    split
    · exact hR
    · exact hR
  | close p =>
    simp only [sysStep, closeInstance]
    split
    · intro kv hkv
      exact hR kv (mem_mapErase hkv)
    · exact hR
  | removeCompletely p =>
    simp only [sysStep, removeInstanceCompletely]
    split
    · intro kv hkv
      exact hR kv (mem_mapErase hkv)
    · exact hR
  | closeAll =>
    intro kv hkv
    cases hkv
  | connUpd tid u =>
    simp only [sysStep]
    split
    · exact hR
    · next s hs =>
      have hdig : tid.data.all Char.isDigit = true := mapLookup_key_digits hR hs
      have hset : keysDigitsOnly
          { R with instances :=
              mapSet tid (handleConnectionUpdate render s u).1 R.instances } :=
        keysDigitsOnly_mapSet hR hdig
      split
      · simp only [removeInstanceCompletely]
        split
        · intro kv hkv
          exact hset kv (mem_mapErase hkv)
        · exact hset
      · exact hset
  | rcTimer tid ok now =>
    simp only [sysStep]
    split
    · exact hR
    · next s hs =>
      exact keysDigitsOnly_mapSet hR (mapLookup_key_digits hR hs)
  | requestQR tid =>
    simp only [sysStep]
    split
    · exact hR
    · next s hs =>
      exact keysDigitsOnly_mapSet hR (mapLookup_key_digits hR hs)

theorem keysDigitsOnly_runSys (render : String → Option String) {R : Registry}
    (hR : keysDigitsOnly R) (es : List SysEvent) :
    keysDigitsOnly (runSys render R es) := by
  induction es generalizing R with
  | nil => exact hR
  | cons e rest ih => exact ih (keysDigitsOnly_sysStep render hR e)

/-- C5 counterexample: `getInstance("abc")` normalizes to the EMPTY id,
yet no rejection happens — a session keyed `""` is created and inserted,
contradicting both the immediate-rejection claim and the invariant that
every stored tenant id is non-empty. -/
theorem C5_counterexample :
    cleanPhone "abc" = "" ∧
    mapLookup ""
        (getInstanceOk (emptyRegistry "./auth_info_baileys" (fun _ => false)) "abc").instances ≠
      none := by
  decide

/-- C5 amended: `getInstance` performs no validation: for any input whose
normalized form is absent — including an empty or letters-only input — a
session keyed by the normalized form is created, inserted and kept; every
stored tenant id is digits-only (but may be empty). -/
theorem C5_tenant_normalization_amended :
    (∀ (render : String → Option String) (base : String) (credsPresent : String → Bool)
       (es : List SysEvent),
       keysDigitsOnly (runSys render (emptyRegistry base credsPresent) es)) ∧
    (∀ (R : Registry) (p : String), mapLookup (cleanPhone p) R.instances = none →
       mapLookup (cleanPhone p) (getInstanceOk R p).instances =
         some { initSession (cleanPhone p)
                  (authDirFor R.authBaseDir (cleanPhone p)) with clientActive := true }) := by
  constructor
  · intro render base credsPresent es
    exact keysDigitsOnly_runSys render (fun kv hkv => by cases hkv) es
  · intro R p h
    simp only [getInstanceOk]
    rw [h]
    exact mapLookup_mapSet_self _ _ _

/-- C5 witness: the amended theorem applied to a concrete event list
containing the letters-only tenant id, and to the concrete insertion. -/
theorem C5_witness :
    keysDigitsOnly
      (runSys renderEx (emptyRegistry "./auth_info_baileys" (fun _ => false))
        [SysEvent.getOk "abc", SysEvent.getOk "+54 911 1234-5678"]) ∧
    mapLookup ""
        (getInstanceOk (emptyRegistry "./auth_info_baileys" (fun _ => false)) "abc").instances =
      some { initSession ""
               (authDirFor "./auth_info_baileys" "") with clientActive := true } := by
  constructor
  · exact C5_tenant_normalization_amended.1 renderEx "./auth_info_baileys" (fun _ => false)
      [SysEvent.getOk "abc", SysEvent.getOk "+54 911 1234-5678"]
  · have h := C5_tenant_normalization_amended.2
      (emptyRegistry "./auth_info_baileys" (fun _ => false)) "abc" (by decide)
    simpa using h

/- ### Claim C6. -/

/-- C6 counterexample: the code's relative markers are the Spanish
literals `"HOY"`/`"MAÑANA"` (src/unnamed/part_000 lines 682, 684): on a
date equal to the current calendar day the output does NOT contain the
literal `"TODAY"`, and on the next day it does not contain
`"TOMORROW"`. -/
theorem C6_counterexample :
    jsDateEq ⟨2026, 10, 11⟩ (todayOf nowEx) = true ∧
    containsSub "TODAY" (formatAppointmentDate nowEx ⟨2026, 10, 11⟩) = false ∧
    jsDateEq ⟨2026, 10, 12⟩ (nextDay (todayOf nowEx)) = true ∧
    containsSub "TOMORROW" (formatAppointmentDate nowEx ⟨2026, 10, 12⟩) = false := by
  decide

/-- C6 amended: with the markers as the source's literals — `"HOY"` for
today and `"MAÑANA"` for tomorrow — the claim holds: the formatted date
contains `"HOY"` exactly when the appointment date equals the current
calendar day, contains `"MAÑANA"` exactly when it equals the next
calendar day (and is not today), and contains neither otherwise; the
classification depends only on the clock's local calendar components
(year, month, day), never on its time of day. -/
theorem C6_date_marker_amended (now : JsDateTime) (d : CalDate) (hv : validDate d) :
    (containsSub "HOY" (formatAppointmentDate now d) = true ↔
      jsDateEq d (todayOf now) = true) ∧
    (containsSub "MAÑANA" (formatAppointmentDate now d) = true ↔
      (jsDateEq d (todayOf now) = false ∧ jsDateEq d (nextDay (todayOf now)) = true)) ∧
    (∀ now' : JsDateTime, todayOf now' = todayOf now →
      formatAppointmentDate now' d = formatAppointmentDate now d) := by
  obtain ⟨hnoH, hnoN⟩ := plainDateStr_no_marker d hv
  have hnoH_man : 'H' ∉ ("MAÑANA - " ++ plainDateStr d).data := by
    rw [String.data_append]
    intro hmem
    rcases List.mem_append.mp hmem with h1 | h2
    · revert h1; decide
    · exact hnoH h2
  have hnoN_hoy : 'Ñ' ∉ ("HOY - " ++ plainDateStr d).data := by
    rw [String.data_append]
    intro hmem
    rcases List.mem_append.mp hmem with h1 | h2
    · revert h1; decide
    · exact hnoN h2
  have hhoy : containsSub "HOY" ("HOY - " ++ plainDateStr d) = true := by
    rw [show ("HOY - " : String) = "HOY" ++ " - " from rfl, String.append_assoc]
    exact containsSub_self_append _ _
  have hman : containsSub "MAÑANA" ("MAÑANA - " ++ plainDateStr d) = true := by
    rw [show ("MAÑANA - " : String) = "MAÑANA" ++ " - " from rfl, String.append_assoc]
    exact containsSub_self_append _ _
  refine ⟨?_, ?_, ?_⟩
  · unfold formatAppointmentDate
    cases hb : jsDateEq d (todayOf now) with
    | true =>
      simp only [hb, if_true]
      simp [hhoy]
    | false =>
      simp only [hb, Bool.false_eq_true, if_false]
      cases hb2 : jsDateEq d (nextDay (todayOf now)) with
      | true =>
        simp only [hb2, if_true]
        rw [containsSub_eq_false (by decide) hnoH_man]
        simp
      | false =>
        simp only [hb2, Bool.false_eq_true, if_false]
        rw [containsSub_eq_false (by decide) hnoH]
        simp
  · unfold formatAppointmentDate
    cases hb : jsDateEq d (todayOf now) with
    | true =>
      simp only [hb, if_true]
      rw [containsSub_eq_false (by decide) hnoN_hoy]
      simp
    | false =>
      simp only [hb, Bool.false_eq_true, if_false]
      cases hb2 : jsDateEq d (nextDay (todayOf now)) with
      | true =>
        simp only [hb2, if_true]
        simp [hman]
      | false =>
        simp only [hb2, Bool.false_eq_true, if_false]
        rw [containsSub_eq_false (by decide) hnoN]
        simp
  · intro now' h
    unfold formatAppointmentDate
    rw [h]

/-- C6 witness: the amended theorem applied at a concrete clock (with a
nonzero time of day) and concrete appointment dates. -/
theorem C6_witness :
    containsSub "HOY" (formatAppointmentDate nowEx ⟨2026, 10, 11⟩) = true ∧
    containsSub "MAÑANA" (formatAppointmentDate nowEx ⟨2026, 10, 12⟩) = true ∧
    containsSub "HOY" (formatAppointmentDate nowEx ⟨2026, 12, 25⟩) = false ∧
    formatAppointmentDate ⟨2026, 10, 11, 0, 0, 1⟩ ⟨2026, 10, 11⟩ =
      formatAppointmentDate nowEx ⟨2026, 10, 11⟩ := by
  refine ⟨?_, ?_, ?_, ?_⟩
  · exact (C6_date_marker_amended nowEx ⟨2026, 10, 11⟩ (by decide)).1.mpr (by decide)
  · exact (C6_date_marker_amended nowEx ⟨2026, 10, 12⟩ (by decide)).2.1.mpr (by decide)
  · by_contra h
    have := (C6_date_marker_amended nowEx ⟨2026, 12, 25⟩ (by decide)).1.mp
      (by revert h; cases containsSub "HOY" (formatAppointmentDate nowEx ⟨2026, 12, 25⟩) <;>
        simp)
    revert this
    decide
  · exact (C6_date_marker_amended nowEx ⟨2026, 10, 11⟩ (by decide)).2.2
      ⟨2026, 10, 11, 0, 0, 1⟩ rfl

/- ### Claim C7. -/

/-- The button list the claim requires: fixed order [confirm, cancel],
only the truthy URLs, indexed sequentially from 1. -/
def specButtons (confirmUrl cancelUrl : Option String) : List TemplateButton :=
  (if truthy confirmUrl then [⟨1, "✅ Confirmar Turno", confirmUrl.getD ""⟩] else []) ++
  (if truthy cancelUrl then
    [⟨if truthy confirmUrl then 2 else 1, "❌ Cancelar Turno", cancelUrl.getD ""⟩] else [])

theorem mkTemplateButtons_eq_specButtons (c x : Option String) :
    mkTemplateButtons c x = specButtons c x := by
  cases hc : truthy c <;> cases hx : truthy x <;>
    simp [mkTemplateButtons, specButtons, hc, hx]

/-- The inline-link suffix decomposition used for the C7 plain-text
case: when at least one URL is truthy, the body is the base plus header
plus the present links in order. -/
theorem appendInlineOptions_eq (header base : String) (c x : Option String)
    (hurl : (truthy c || truthy x) = true) :
    appendInlineOptions header base c x =
      ((base ++ header) ++ (if truthy c then "\n✅ Confirmar Turno: " ++ c.getD "" else "")) ++
        (if truthy x then "\n❌ Cancelar Turno: " ++ x.getD "" else "") := by
  simp only [appendInlineOptions, if_pos hurl]
  cases hc : truthy c <;> cases hx : truthy x <;> simp [hc, hx]

theorem truthy_false_some {u : String} (h : truthy (some u) = false) : u = "" := by
  simpa [truthy] using h

/-- C7: for each of the three template kinds, a business-capable account
with at least one truthy URL gets a `ButtonedText` whose actions are in
fixed order [confirm, cancel], include only the URLs present and are
indexed sequentially from 1; a non-business account on the same inputs
gets a `PlainText` whose body embeds each present URL as an inline
labelled link. -/
theorem C7_template_buttons (mt : String) (now : JsDateTime) (data : AppointmentData)
    (c x : Option String)
    (hmt : mt = "confirmation" ∨ mt = "reminder" ∨ mt = "urgent")
    (hurl : (truthy c || truthy x) = true) :
    (∃ body, generateTemplateMessage true now
        { messageType := mt, appointmentData := data, confirmUrl := c, cancelUrl := x } =
      Except.ok (MessagePayload.buttoned body (specButtons c x))) ∧
    (∃ body, generateTemplateMessage false now
        { messageType := mt, appointmentData := data, confirmUrl := c, cancelUrl := x } =
      Except.ok (MessagePayload.plain body) ∧
      (∀ u, c = some u → ∃ p q, body = p ++ (u ++ q)) ∧
      (∀ u, x = some u → ∃ p q, body = p ++ (u ++ q))) := by
  have hfin : ∀ header base : String,
      finishTemplate true header base c x =
        MessagePayload.buttoned base (specButtons c x) := by
    intro header base
    unfold finishTemplate
    rw [if_pos (by simp [hurl]), mkTemplateButtons_eq_specButtons]
  have hsplit : ∀ header base : String,
      (∀ u, c = some u →
        ∃ p q, appendInlineOptions header base c x = p ++ (u ++ q)) ∧
      (∀ u, x = some u →
        ∃ p q, appendInlineOptions header base c x = p ++ (u ++ q)) := by
    intro header base
    have hempty : ∀ b : String, ∃ p q, b = p ++ (("" : String) ++ q) :=
      fun b => ⟨b, "", by simp⟩
    rw [appendInlineOptions_eq header base c x hurl]
    constructor
    · intro u hu
      subst hu
      cases hc : truthy (some u) with
      | false =>
        have hu0 : u = "" := truthy_false_some hc
        subst hu0
        exact hempty _
      | true =>
        cases hx : truthy x with
        | false =>
          exact ⟨(base ++ header) ++ "\n✅ Confirmar Turno: ", "", by
            simp [hc, hx, String.append_assoc]⟩
        | true =>
          exact ⟨(base ++ header) ++ "\n✅ Confirmar Turno: ",
            "\n❌ Cancelar Turno: " ++ x.getD "", by
            simp [hc, hx, String.append_assoc]⟩
    · intro u hu
      subst hu
      cases hx : truthy (some u) with
      | false =>
        have hu0 : u = "" := truthy_false_some hx
        subst hu0
        exact hempty _
      | true =>
        cases hc : truthy c with
        | false =>
          exact ⟨(base ++ header) ++ "\n❌ Cancelar Turno: ", "", by
            simp [hc, hx, String.append_assoc]⟩
        | true =>
          exact ⟨((base ++ header) ++ ("\n✅ Confirmar Turno: " ++ c.getD "")) ++
            "\n❌ Cancelar Turno: ", "", by
            simp [hc, hx, String.append_assoc]⟩
  have hfinPlain : ∀ header base : String,
      finishTemplate false header base c x =
        MessagePayload.plain (appendInlineOptions header base c x) := by
    intro header base
    unfold finishTemplate
    rw [if_neg (by simp)]
  rcases hmt with rfl | rfl | rfl <;>
  · constructor
    · simp only [generateTemplateMessage, generateConfirmationMessage,
        generateReminderMessage, generateUrgentMessage, reduceIte]
      exact ⟨_, congrArg Except.ok (hfin _ _)⟩
    · simp only [generateTemplateMessage, generateConfirmationMessage,
        generateReminderMessage, generateUrgentMessage, reduceIte]
      exact ⟨_, congrArg Except.ok (hfinPlain _ _), (hsplit _ _).1, (hsplit _ _).2⟩

/-- C7 witness: the theorem applied with both URLs present on a concrete
request; the ButtonedText case and the PlainText case instantiated. -/
theorem C7_witness :
    (∃ body, generateTemplateMessage true nowEx
        { messageType := "confirmation", appointmentData := apptEx
          confirmUrl := some "https://ex.ample/c", cancelUrl := some "https://ex.ample/x" } =
      Except.ok (MessagePayload.buttoned body
        (specButtons (some "https://ex.ample/c") (some "https://ex.ample/x")))) ∧
    (∃ body, generateTemplateMessage false nowEx
        { messageType := "confirmation", appointmentData := apptEx
          confirmUrl := some "https://ex.ample/c", cancelUrl := some "https://ex.ample/x" } =
      Except.ok (MessagePayload.plain body) ∧
      (∀ u, (some "https://ex.ample/c" : Option String) = some u →
        ∃ p q, body = p ++ (u ++ q)) ∧
      (∀ u, (some "https://ex.ample/x" : Option String) = some u →
        ∃ p q, body = p ++ (u ++ q))) :=
  C7_template_buttons "confirmation" nowEx apptEx
    (some "https://ex.ample/c") (some "https://ex.ample/x") (Or.inl rfl) (by decide)

/- ### Claim C8. -/

/-- C8: an unknown `messageKind` makes `generateTemplateMessage` fail
with the invalid-kind error and no payload is produced. -/
theorem C8_invalid_kind (isBusinessAccount : Bool) (now : JsDateTime) (td : TemplateData)
    (h : ¬(td.messageType = "confirmation" ∨ td.messageType = "reminder" ∨
      td.messageType = "urgent")) :
    generateTemplateMessage isBusinessAccount now td =
      Except.error ("Tipo de mensaje no válido: " ++ td.messageType) := by
  push_neg at h
  obtain ⟨h1, h2, h3⟩ := h
  unfold generateTemplateMessage
  rw [if_neg h1, if_neg h2, if_neg h3]

/-- C8 witness: the theorem applied at the concrete unknown kind
`"foo"`. -/
theorem C8_witness :
    generateTemplateMessage true nowEx
        { messageType := "foo", appointmentData := apptEx
          confirmUrl := none, cancelUrl := none } =
      Except.error ("Tipo de mensaje no válido: " ++ "foo") :=
  C8_invalid_kind true nowEx
    { messageType := "foo", appointmentData := apptEx, confirmUrl := none, cancelUrl := none }
    (by decide)

/- ### Claim C9. -/

/-- C9: closing a present tenant removes it from the mapping while every
tenant's credential store is left untouched, and the shutdown the session
performs cancels the reconnection timer, ends the transport socket and
marks the session disconnected. -/
theorem C9_close_keeps_credentials (R : Registry) (p : String) (s : SessionState)
    (h : mapLookup (cleanPhone p) R.instances = some s) :
    mapLookup (cleanPhone p) (closeInstance R p).instances = none ∧
    (∀ t, (closeInstance R p).creds t = R.creds t) ∧
    (gracefulShutdown s).reconnectTimeout = none ∧
    (gracefulShutdown s).isReconnecting = false ∧
    (gracefulShutdown s).clientActive = false ∧
    (gracefulShutdown s).isConnected = false ∧
    (gracefulShutdown s).connectionState = ConnState.disconnected := by
  have hclose : closeInstance R p =
      { R with instances := mapErase (cleanPhone p) R.instances } := by
    simp only [closeInstance, h]
  refine ⟨?_, ?_, rfl, rfl, rfl, rfl, rfl⟩
  · rw [hclose]
    exact mapLookup_mapErase_self _ _
  · intro t
    rw [hclose]

/-- C9 witness: the theorem applied to the concrete one-tenant registry;
the credential store still reports present after the close. -/
theorem C9_witness :
    mapLookup (cleanPhone "5491112345678") (closeInstance registryEx "5491112345678").instances =
      none ∧
    (closeInstance registryEx "5491112345678").creds "5491112345678" =
      registryEx.creds "5491112345678" := by
  have h := C9_close_keeps_credentials registryEx "5491112345678" sessionEx (by decide)
  exact ⟨h.1, h.2.1 "5491112345678"⟩

/- ### Claim C10. -/

/-- C10: for a tenant id whose normalized form is absent from the
mapping, both `closeInstance` and `removeInstanceCompletely` are
no-ops: no error, the registry (mapping and credential stores) is
returned unchanged. -/
theorem C10_absent_noop (R : Registry) (p : String)
    (h : mapLookup (cleanPhone p) R.instances = none) :
    closeInstance R p = R ∧ removeInstanceCompletely R p = R := by
  constructor
  · simp only [closeInstance, h]
  · simp only [removeInstanceCompletely, h]

/-- C10 witness: the theorem applied to the concrete registry and an
absent tenant id (whose credential directory even exists on disk: it is
not deleted since the registry returns unchanged). -/
theorem C10_witness :
    closeInstance
        { instances := [], authBaseDir := "./auth_info_baileys"
          creds := fun t => t == "400000" } "40-00-00" =
      { instances := [], authBaseDir := "./auth_info_baileys"
        creds := fun t => t == "400000" } ∧
    removeInstanceCompletely
        { instances := [], authBaseDir := "./auth_info_baileys"
          creds := fun t => t == "400000" } "40-00-00" =
      { instances := [], authBaseDir := "./auth_info_baileys"
        creds := fun t => t == "400000" } :=
  C10_absent_noop
    { instances := [], authBaseDir := "./auth_info_baileys", creds := fun t => t == "400000" }
    "40-00-00" (by decide)
